import Mathlib

/-!
Shallow embedding of the Task Repository Service
(`pkg/api/v1/todo-service.go` of maslow123/go-grpc) in Lean 4.

The service is a CRUD layer over a single `todo` table.  Each handler
composes an API-version gate (`checkAPI`), a connection accessor
(`connect`), one SQL statement, and a result-mapping step.  We embed:

* the proto timestamp codec (`ptypes.Timestamp` / `ptypes.TimestampProto`),
  modelled as a range validity check on (seconds, nanos) pairs, exact on
  valid inputs;
* the `todo` table as a list of rows plus the AUTO_INCREMENT counter
  (schema: `id BIGINT AUTO_INCREMENT PRIMARY KEY, title, description,
  reminder`);
* infrastructure failure as an `Env` of three booleans: connection
  acquisition, exec-statement success, query success;
* each handler as a pure function on `Env × Table × request`, returning
  the outcome, the final table, and whether a connection was acquired.

Two Go control-flow slips are embedded faithfully rather than repaired:
`Read` returns `(nil, nil)` when the cursor yields a second row
(modelled by `Outcome.nilNil`), and `Update` never checks the error of
its `ExecContext` call, so a failed statement leads to a nil-pointer
dereference on `res.RowsAffected()` (modelled by `Outcome.crash`).
-/

namespace TodoService

/-- Wire timestamp: `google.protobuf.Timestamp` with `seconds` and `nanos`. -/
structure PTimestamp where
  seconds : Int
  nanos : Int
deriving Repr, DecidableEq

/-- Lower bound of `ptypes` validity: seconds of 0001-01-01T00:00:00Z. -/
def minValidSeconds : Int := -62135596800

/-- Upper bound of `ptypes` validity: seconds of 10000-01-01T00:00:00Z. -/
def maxValidSeconds : Int := 253402300800

/-- `ptypes.validateTimestamp`: seconds in the proto range, nanos in [0, 1e9). -/
def PTimestamp.valid (ts : PTimestamp) : Bool :=
  decide (minValidSeconds ≤ ts.seconds) && decide (ts.seconds < maxValidSeconds) &&
  decide (0 ≤ ts.nanos) && decide (ts.nanos < 1000000000)

/-- `ptypes.Timestamp`: convert a (possibly nil) proto timestamp to a
`time.Time`.  A nil pointer or an out-of-range value is an error; a valid
value converts exactly, so we keep the pair itself as the time value. -/
def ptypesTimestamp : Option PTimestamp → Except String PTimestamp
  | none => .error "timestamp: nil Timestamp"
  | some ts =>
    if ts.valid then .ok ts
    else .error "timestamp out of range"

/-- `ptypes.TimestampProto`: convert a `time.Time` back to a proto
timestamp; fails outside the proto range, exact inside it. -/
def timestampProto (t : PTimestamp) : Except String (Option PTimestamp) :=
  if t.valid then .ok (some t)
  else .error "timestamp out of range"

/-- gRPC status codes used by the service. -/
inductive Code where
  | Unimplemented
  | InvalidArgument
  | NotFound
  | Unknown
deriving Repr, DecidableEq

/-- A `status.Error`: a code plus a human-readable message. -/
structure StatusErr where
  code : Code
  msg : String
deriving Repr, DecidableEq

/-- The `Todo` proto message. -/
structure Todo where
  id : Int
  title : String
  description : String
  reminder : Option PTimestamp
deriving Repr, DecidableEq

/-- One row of the `todo` table (`reminder` holds the stored time value). -/
structure Row where
  id : Int
  title : String
  description : String
  reminder : PTimestamp
deriving Repr, DecidableEq

/-- The `todo` table: its rows plus the AUTO_INCREMENT counter. -/
structure Table where
  rows : List Row
  nextId : Int
deriving Repr, DecidableEq

/-- Infrastructure environment: whether connection acquisition, exec
statements and queries succeed on this call. -/
structure Env where
  connOk : Bool
  execOk : Bool
  queryOk : Bool
deriving Repr, DecidableEq

/-- A Go handler exit: a response, a status error, the `(nil, nil)` exit of
`Read`'s second-row branch, or a runtime panic (nil dereference). -/
inductive Outcome (α : Type) where
  | ok (resp : α)
  | err (e : StatusErr)
  | nilNil
  | crash
deriving Repr, DecidableEq

/-- Result of running a handler: its outcome, the table afterwards, and
whether a pool connection was acquired during the call. -/
structure HResult (α : Type) where
  outcome : Outcome α
  table : Table
  connAcquired : Bool
deriving Repr, DecidableEq

/-- `apiVersion`: the version of the API provided by the server. -/
def apiVersion : String := "v1"

/-- `checkAPI`: empty string means "use current version"; a non-empty
non-matching string is `Unimplemented`, naming both versions. -/
def checkAPI (api : String) : Option StatusErr :=
  if api.length > 0 then
    if apiVersion ≠ api then
      some ⟨Code.Unimplemented,
        "Unsupported API version: service implements API version '"
          ++ apiVersion ++ "', but asked for '" ++ api ++ "'"⟩
    else none
  else none

/-- Error produced by `connect` when the pool has no connection. -/
def connectErr : StatusErr :=
  ⟨Code.Unknown, "Failed to connect to database -> driver failure"⟩

/-- `CreateRequest`. -/
structure CreateRequest where
  api : String
  todo : Todo
deriving Repr, DecidableEq

/-- `CreateResponse`. -/
structure CreateResponse where
  api : String
  id : Int
deriving Repr, DecidableEq

/-- `ReadRequest`. -/
structure ReadRequest where
  api : String
  id : Int
deriving Repr, DecidableEq

/-- `ReadResponse`. -/
structure ReadResponse where
  api : String
  todo : Todo
deriving Repr, DecidableEq

/-- `UpdateRequest`. -/
structure UpdateRequest where
  api : String
  todo : Todo
deriving Repr, DecidableEq

/-- `UpdateResponse`. -/
structure UpdateResponse where
  api : String
  updated : Int
deriving Repr, DecidableEq

/-- `DeleteRequest`. -/
structure DeleteRequest where
  api : String
  id : Int
deriving Repr, DecidableEq

/-- `DeleteResponse`. -/
structure DeleteResponse where
  api : String
  deleted : Int
deriving Repr, DecidableEq

/-- `ReadAllRequest`. -/
structure ReadAllRequest where
  api : String
deriving Repr, DecidableEq

/-- `ReadAllResponse`. -/
structure ReadAllResponse where
  api : String
  todos : List Todo
deriving Repr, DecidableEq

/-- `Create`: version gate, connect, decode the reminder
(`InvalidArgument` on failure), `INSERT INTO todo(title, description,
reminder)`, return the last-insert id. -/
def Create (env : Env) (t : Table) (req : CreateRequest) : HResult CreateResponse :=
  match checkAPI req.api with
  | some e => ⟨.err e, t, false⟩
  | none =>
    if !env.connOk then ⟨.err connectErr, t, false⟩
    else
      match ptypesTimestamp req.todo.reminder with
      | .error m =>
          ⟨.err ⟨Code.InvalidArgument, "Reminder field has invalid format -> " ++ m⟩, t, true⟩
      | .ok reminder =>
        if !env.execOk then
          ⟨.err ⟨Code.Unknown, "Failed to insert into todo -> driver failure"⟩, t, true⟩
        else
          let id := t.nextId
          ⟨.ok ⟨apiVersion, id⟩,
           ⟨t.rows ++ [⟨id, req.todo.title, req.todo.description, reminder⟩], t.nextId + 1⟩,
           true⟩

/-- The `NotFound` message of `Read`: the Go source calls
`fmt.Sprintf("Todo with ID='%d' is not found")` with no argument for the
`%d` verb, so the formatted message carries Go's missing-argument marker
instead of the id. -/
def readNotFoundMsg : String := "Todo with ID='%!d(MISSING)' is not found"

/-- `Read`: version gate, connect, `SELECT ... WHERE id = ?`; zero rows is
`NotFound`; the first row is scanned and its reminder re-encoded; if the
cursor then yields a second row the handler executes `return nil, err`
with `err` known to be nil, i.e. it exits with neither response nor error. -/
def Read (env : Env) (t : Table) (req : ReadRequest) : HResult ReadResponse :=
  match checkAPI req.api with
  | some e => ⟨.err e, t, false⟩
  | none =>
    if !env.connOk then ⟨.err connectErr, t, false⟩
    else if !env.queryOk then
      ⟨.err ⟨Code.Unknown, "Failed to select from Todo -> driver failure"⟩, t, true⟩
    else
      match t.rows.filter (fun r => r.id = req.id) with
      | [] => ⟨.err ⟨Code.NotFound, readNotFoundMsg⟩, t, true⟩
      | r :: rest =>
        match timestampProto r.reminder with
        | .error m =>
            ⟨.err ⟨Code.Unknown, "reminder field has invalid format -> " ++ m⟩, t, true⟩
        | .ok rem =>
          if rest.isEmpty then
            ⟨.ok ⟨apiVersion, ⟨r.id, r.title, r.description, rem⟩⟩, t, true⟩
          else
            ⟨.nilNil, t, true⟩

/-- The row produced by the `UPDATE` statement for a row `r` matched by id. -/
def updateRow (req : UpdateRequest) (rem : PTimestamp) (r : Row) : Row :=
  if r.id = req.todo.id then ⟨r.id, req.todo.title, req.todo.description, rem⟩ else r

/-- `Update`: version gate, connect, decode the reminder, `UPDATE todo SET
... WHERE id = ?`.  The error of `ExecContext` is never checked: on a
failed statement `res` is nil and the following `res.RowsAffected()`
dereferences it, a runtime panic.  On success the affected-row count is
returned, 0 when no row matched. -/
def Update (env : Env) (t : Table) (req : UpdateRequest) : HResult UpdateResponse :=
  match checkAPI req.api with
  | some e => ⟨.err e, t, false⟩
  | none =>
    if !env.connOk then ⟨.err connectErr, t, false⟩
    else
      match ptypesTimestamp req.todo.reminder with
      | .error m =>
          ⟨.err ⟨Code.InvalidArgument, "Reminder field has invalid format -> " ++ m⟩, t, true⟩
      | .ok rem =>
        if !env.execOk then ⟨.crash, t, true⟩
        else
          let affected := (t.rows.filter (fun r => r.id = req.todo.id)).length
          ⟨.ok ⟨apiVersion, affected⟩,
           ⟨t.rows.map (updateRow req rem), t.nextId⟩,
           true⟩

/-- `Delete`: version gate, connect, `DELETE FROM todo WHERE id = ?`; an
affected-row count of zero is `NotFound` naming the id. -/
def Delete (env : Env) (t : Table) (req : DeleteRequest) : HResult DeleteResponse :=
  match checkAPI req.api with
  | some e => ⟨.err e, t, false⟩
  | none =>
    if !env.connOk then ⟨.err connectErr, t, false⟩
    else if !env.execOk then
      ⟨.err ⟨Code.Unknown, "Failed to delete Todo ->driver failure"⟩, t, true⟩
    else
      let affected := (t.rows.filter (fun r => r.id = req.id)).length
      if affected = 0 then
        ⟨.err ⟨Code.NotFound, "Todo with ID = '" ++ toString req.id ++ "' is not found"⟩,
         t, true⟩
      else
        ⟨.ok ⟨apiVersion, affected⟩,
         ⟨t.rows.filter (fun r => !(r.id = req.id : Bool)), t.nextId⟩,
         true⟩

/-- The response view of a stored row (after a successful reminder decode). -/
def rowToTodo (r : Row) : Todo :=
  ⟨r.id, r.title, r.description, some r.reminder⟩

/-- The scan-and-decode loop of `ReadAll`: each row's reminder is decoded
individually; the first failure aborts the whole loop with `Unknown`. -/
def decodeRows : List Row → Except StatusErr (List Todo)
  | [] => .ok []
  | r :: rs =>
    match timestampProto r.reminder with
    | .error m => .error ⟨Code.Unknown, "reminder field has invalid format -> " ++ m⟩
    | .ok rem =>
      match decodeRows rs with
      | .error e => .error e
      | .ok l => .ok (⟨r.id, r.title, r.description, rem⟩ :: l)

/-- `ReadAll`: version gate, connect, `SELECT ... FROM todo` (no ORDER BY),
scan every row decoding each reminder; any decode failure aborts with
`Unknown` and no partial list. -/
def ReadAll (env : Env) (t : Table) (req : ReadAllRequest) : HResult ReadAllResponse :=
  match checkAPI req.api with
  | some e => ⟨.err e, t, false⟩
  | none =>
    if !env.connOk then ⟨.err connectErr, t, false⟩
    else if !env.queryOk then
      ⟨.err ⟨Code.Unknown, "Failed to select from todo -> driver failure"⟩, t, true⟩
    else
      match decodeRows t.rows with
      | .error e => ⟨.err e, t, true⟩
      | .ok l => ⟨.ok ⟨apiVersion, l⟩, t, true⟩

end TodoService

namespace TodoService

/-- A non-empty string has positive length. -/
theorem length_pos_of_ne_empty (s : String) (h : s ≠ "") : 0 < s.length := by
  cases s with
  | mk data =>
    cases data with
    | nil => exact absurd rfl h
    | cons a l => simp [String.length]

/-- C1: for each of the five operations, an empty requested version passes
the gate, and a non-empty version different from "v1" makes the operation
fail with `Unimplemented` naming both the expected and requested versions,
with the table unchanged and no connection acquired, for every environment
and every other input field. -/
theorem c1_version_gate (env : Env) (t : Table) (api : String)
    (todo : Todo) (id : Int)
    (hne : api ≠ "") (hnv : api ≠ apiVersion) :
    checkAPI "" = none ∧ apiVersion = "v1" ∧
    (let e : StatusErr := ⟨Code.Unimplemented,
        "Unsupported API version: service implements API version '"
          ++ apiVersion ++ "', but asked for '" ++ api ++ "'"⟩
     Create env t ⟨api, todo⟩ = ⟨.err e, t, false⟩ ∧
     Read env t ⟨api, id⟩ = ⟨.err e, t, false⟩ ∧
     Update env t ⟨api, todo⟩ = ⟨.err e, t, false⟩ ∧
     Delete env t ⟨api, id⟩ = ⟨.err e, t, false⟩ ∧
     ReadAll env t ⟨api⟩ = ⟨.err e, t, false⟩) := by
  have hlen : 0 < api.length := length_pos_of_ne_empty api hne
  have hvne : apiVersion ≠ api := fun h => hnv h.symm
  have hchk : checkAPI api = some ⟨Code.Unimplemented,
      "Unsupported API version: service implements API version '"
        ++ apiVersion ++ "', but asked for '" ++ api ++ "'"⟩ := by
    simp [checkAPI, hlen, hvne]
  refine ⟨rfl, rfl, ?_, ?_, ?_, ?_, ?_⟩ <;>
    simp [Create, Read, Update, Delete, ReadAll, hchk]

theorem c1_version_gate_witness :
    ("v2" : String) ≠ "" ∧ ("v2" : String) ≠ apiVersion ∧
    Create ⟨true, true, true⟩ ⟨[], 1⟩ ⟨"v2", ⟨0, "", "", none⟩⟩ =
      ⟨.err ⟨Code.Unimplemented,
        "Unsupported API version: service implements API version '"
          ++ apiVersion ++ "', but asked for '" ++ "v2" ++ "'"⟩, ⟨[], 1⟩, false⟩ :=
  ⟨by decide, by decide,
    (c1_version_gate ⟨true, true, true⟩ ⟨[], 1⟩ "v2" ⟨0, "", "", none⟩ 0
      (by decide) (by decide)).2.2.1⟩

/-- C2: with a well-formed reminder, matching version and working storage,
`Update` on an id matching no stored row succeeds with a rows-updated
count of 0, while `Delete` on the same id fails with `NotFound`. -/
theorem c2_update_delete_asymmetry (env : Env) (t : Table) (api : String)
    (id : Int) (title description : String) (rem : PTimestamp)
    (hconn : env.connOk = true) (hexec : env.execOk = true)
    (hapi : checkAPI api = none) (hrem : rem.valid = true)
    (hid : ∀ r ∈ t.rows, r.id ≠ id) :
    (Update env t ⟨api, ⟨id, title, description, some rem⟩⟩).outcome =
      .ok ⟨apiVersion, 0⟩ ∧
    (Delete env t ⟨api, id⟩).outcome =
      .err ⟨Code.NotFound, "Todo with ID = '" ++ toString id ++ "' is not found"⟩ := by
  have hfil : t.rows.filter (fun r => r.id = id) = [] := by
    rw [List.filter_eq_nil_iff]
    intro r hr
    simpa using hid r hr
  constructor
  · simp [Update, hapi, hconn, hexec, ptypesTimestamp, hrem, hfil]
  · simp [Delete, hapi, hconn, hexec, hfil]

theorem c2_update_delete_asymmetry_witness :
    (⟨true, true, true⟩ : Env).connOk = true ∧
    (⟨true, true, true⟩ : Env).execOk = true ∧
    checkAPI "" = none ∧
    (⟨0, 0⟩ : PTimestamp).valid = true ∧
    (∀ r ∈ (⟨[⟨1, "a", "b", ⟨0, 0⟩⟩], 2⟩ : Table).rows, r.id ≠ (5 : Int)) ∧
    ((Update ⟨true, true, true⟩ ⟨[⟨1, "a", "b", ⟨0, 0⟩⟩], 2⟩
        ⟨"", ⟨5, "x", "y", some ⟨0, 0⟩⟩⟩).outcome = .ok ⟨apiVersion, 0⟩ ∧
     (Delete ⟨true, true, true⟩ ⟨[⟨1, "a", "b", ⟨0, 0⟩⟩], 2⟩ ⟨"", 5⟩).outcome =
      .err ⟨Code.NotFound, "Todo with ID = '" ++ toString (5 : Int) ++ "' is not found"⟩) :=
  ⟨rfl, rfl, rfl, by decide, by decide,
    c2_update_delete_asymmetry ⟨true, true, true⟩ ⟨[⟨1, "a", "b", ⟨0, 0⟩⟩], 2⟩ "" 5 "x" "y"
      ⟨0, 0⟩ rfl rfl rfl (by decide) (by decide)⟩

/-- C3: when the row query for an id yields a second row after the first
has been consumed and scanned, `Read` executes `return nil, err` with
`err` provably nil: it exits with neither a response nor an error
(`Outcome.nilNil`), not with an `Unknown` error as the spec requires. -/
theorem c3_read_duplicate_rows_neither_response_nor_error :
    (Read ⟨true, true, true⟩
        ⟨[⟨7, "a", "b", ⟨0, 0⟩⟩, ⟨7, "c", "d", ⟨0, 0⟩⟩], 8⟩ ⟨"", 7⟩).outcome =
      Outcome.nilNil ∧
    (∀ resp : ReadResponse, (Outcome.nilNil : Outcome ReadResponse) ≠ .ok resp) ∧
    (∀ e : StatusErr, (Outcome.nilNil : Outcome ReadResponse) ≠ .err e) :=
  ⟨by decide, fun _ => by simp, fun _ => by simp⟩

/-- C4: `Update` never checks the error returned by its `ExecContext`
call; when the write statement fails, the nil statement result is
dereferenced by `res.RowsAffected()` and the handler crashes instead of
returning the write failure as a typed error. -/
theorem c4_update_exec_failure_crashes :
    (Update ⟨true, false, true⟩ ⟨[⟨1, "a", "b", ⟨0, 0⟩⟩], 2⟩
        ⟨"", ⟨1, "x", "y", some ⟨0, 0⟩⟩⟩).outcome = Outcome.crash ∧
    (∀ e : StatusErr, (Outcome.crash : Outcome UpdateResponse) ≠ .err e) :=
  ⟨by decide, fun _ => by simp⟩

/-- C5: `Read` on an id matching zero rows fails with `NotFound`, but its
message is formatted with a `%d` verb and no argument, so it carries the
missing-argument marker and does not name the missing id (42 here). -/
theorem c5_read_notfound_message_lacks_id :
    (Read ⟨true, true, true⟩ ⟨[], 1⟩ ⟨"", 42⟩).outcome =
      .err ⟨Code.NotFound, readNotFoundMsg⟩ ∧
    readNotFoundMsg = "Todo with ID=\'%!d(MISSING)\' is not found" ∧
    ¬ (toString (42 : Int)).data <:+: readNotFoundMsg.data :=
  ⟨by decide, rfl, by decide⟩

/-- C6: with a matching version and an acquirable connection, `Create` and
`Update` on a reminder that is not a structurally valid timestamp (nil or
out of range) fail with `InvalidArgument` and leave the table unchanged. -/
theorem c6_malformed_reminder_no_mutation (env : Env) (t : Table)
    (api : String) (todo : Todo)
    (hconn : env.connOk = true) (hapi : checkAPI api = none)
    (hbad : ∀ ts, todo.reminder = some ts → ts.valid = false) :
    (∃ m, Create env t ⟨api, todo⟩ = ⟨.err ⟨Code.InvalidArgument, m⟩, t, true⟩) ∧
    (∃ m, Update env t ⟨api, todo⟩ = ⟨.err ⟨Code.InvalidArgument, m⟩, t, true⟩) := by
  have hdec : ∃ m, ptypesTimestamp todo.reminder = .error m := by
    cases hrem : todo.reminder with
    | none => exact ⟨_, rfl⟩
    | some ts =>
      refine ⟨"timestamp out of range", ?_⟩
      simp [ptypesTimestamp, hbad ts hrem]
  obtain ⟨m, hm⟩ := hdec
  constructor
  · exact ⟨"Reminder field has invalid format -> " ++ m,
      by simp [Create, hapi, hconn, hm]⟩
  · exact ⟨"Reminder field has invalid format -> " ++ m,
      by simp [Update, hapi, hconn, hm]⟩

theorem c6_malformed_reminder_no_mutation_witness :
    (⟨true, true, true⟩ : Env).connOk = true ∧
    checkAPI "" = none ∧
    (∀ ts : PTimestamp, (none : Option PTimestamp) = some ts → ts.valid = false) ∧
    ((∃ m, Create ⟨true, true, true⟩ ⟨[], 1⟩ ⟨"", ⟨0, "x", "y", none⟩⟩ =
        ⟨.err ⟨Code.InvalidArgument, m⟩, ⟨[], 1⟩, true⟩) ∧
     (∃ m, Update ⟨true, true, true⟩ ⟨[], 1⟩ ⟨"", ⟨0, "x", "y", none⟩⟩ =
        ⟨.err ⟨Code.InvalidArgument, m⟩, ⟨[], 1⟩, true⟩)) :=
  by
  have hb : ∀ ts : PTimestamp, (none : Option PTimestamp) = some ts → ts.valid = false := by
    intro ts h
    cases h
  exact ⟨rfl, rfl, hb,
    c6_malformed_reminder_no_mutation ⟨true, true, true⟩ ⟨[], 1⟩ "" ⟨0, "x", "y", none⟩
      rfl rfl hb⟩

/-- C7: with working infrastructure, a matching version, a valid reminder
and a fresh AUTO_INCREMENT counter, Create succeeds and Read with the id
returned by Create yields a Task with the same title, description and
reminder, the timestamp reproduced exactly. -/
theorem c7_create_read_roundtrip (env : Env) (t : Table) (api : String)
    (title description : String) (rem : PTimestamp)
    (hconn : env.connOk = true) (hexec : env.execOk = true)
    (hquery : env.queryOk = true) (hapi : checkAPI api = none)
    (hrem : rem.valid = true)
    (hfresh : ∀ r ∈ t.rows, r.id ≠ t.nextId) :
    ∃ id t2,
      Create env t ⟨api, ⟨0, title, description, some rem⟩⟩ =
        ⟨.ok ⟨apiVersion, id⟩, t2, true⟩ ∧
      (Read env t2 ⟨api, id⟩).outcome =
        .ok ⟨apiVersion, ⟨id, title, description, some rem⟩⟩ := by
  refine ⟨t.nextId, ⟨t.rows ++ [⟨t.nextId, title, description, rem⟩], t.nextId + 1⟩, ?_, ?_⟩
  · simp [Create, hapi, hconn, hexec, ptypesTimestamp, hrem]
  · have h1 : t.rows.filter (fun r => (r.id = t.nextId : Bool)) = [] := by
      rw [List.filter_eq_nil_iff]
      intro r hr
      simpa using hfresh r hr
    simp [Read, hapi, hconn, hquery, h1, timestampProto, hrem]

theorem c7_create_read_roundtrip_witness :
    (⟨true, true, true⟩ : Env).connOk = true ∧
    checkAPI "" = none ∧
    (⟨1704067200, 0⟩ : PTimestamp).valid = true ∧
    (∀ r ∈ (⟨[], 1⟩ : Table).rows, r.id ≠ (⟨[], 1⟩ : Table).nextId) ∧
    (∃ id t2,
      Create ⟨true, true, true⟩ ⟨[], 1⟩ ⟨"", ⟨0, "buy milk", "2%", some ⟨1704067200, 0⟩⟩⟩ =
        ⟨.ok ⟨apiVersion, id⟩, t2, true⟩ ∧
      (Read ⟨true, true, true⟩ t2 ⟨"", id⟩).outcome =
        .ok ⟨apiVersion, ⟨id, "buy milk", "2%", some ⟨1704067200, 0⟩⟩⟩) :=
  ⟨rfl, rfl, by decide, by simp,
    c7_create_read_roundtrip ⟨true, true, true⟩ ⟨[], 1⟩ "" "buy milk" "2%" ⟨1704067200, 0⟩
      rfl rfl rfl rfl (by decide) (by simp)⟩

/-- When every row's reminder is valid, the `ReadAll` scan loop decodes the
whole table, in stored order. -/
theorem decodeRows_ok_of_all_valid (rs : List Row)
    (h : ∀ r ∈ rs, r.reminder.valid = true) :
    decodeRows rs = .ok (rs.map rowToTodo) := by
  induction rs with
  | nil => rfl
  | cons r rest ih =>
    have hr : r.reminder.valid = true := h r (List.mem_cons_self r rest)
    have hrest : ∀ x ∈ rest, x.reminder.valid = true :=
      fun x hx => h x (List.mem_cons_of_mem r hx)
    simp [decodeRows, timestampProto, hr, ih hrest, rowToTodo]

/-- If any row's reminder is invalid, the `ReadAll` scan loop aborts with
an `Unknown`-coded error. -/
theorem decodeRows_err_of_invalid (rs : List Row)
    (h : ∃ r ∈ rs, r.reminder.valid = false) :
    ∃ m, decodeRows rs = .error ⟨Code.Unknown, m⟩ := by
  induction rs with
  | nil => simp at h
  | cons r rest ih =>
    by_cases hr : r.reminder.valid = true
    · have hrest : ∃ x ∈ rest, x.reminder.valid = false := by
        rcases h with ⟨x, hx, hv⟩
        rcases List.mem_cons.mp hx with h1 | h2
        · subst h1
          rw [hr] at hv
          cases hv
        · exact ⟨x, h2, hv⟩
      obtain ⟨m, hm⟩ := ih hrest
      exact ⟨m, by simp [decodeRows, timestampProto, hr, hm]⟩
    · have hr2 : r.reminder.valid = false := by
        cases hvv : r.reminder.valid
        · rfl
        · exact absurd hvv hr
      exact ⟨"reminder field has invalid format -> timestamp out of range",
        by simp [decodeRows, timestampProto, hr2]⟩

/-- C8: with working infrastructure and a matching version, `ReadAll`
decodes each row's timestamp individually; if any row fails to decode, the
whole call fails with `Unknown` and no list is returned, and if every row
decodes, the response lists every stored Task (in stored order here; no
order is promised). -/
theorem c8_readall_decode_all_or_nothing (env : Env) (t : Table) (api : String)
    (hconn : env.connOk = true) (hquery : env.queryOk = true)
    (hapi : checkAPI api = none) :
    ((∃ r ∈ t.rows, r.reminder.valid = false) →
      ∃ m, ReadAll env t ⟨api⟩ = ⟨.err ⟨Code.Unknown, m⟩, t, true⟩) ∧
    ((∀ r ∈ t.rows, r.reminder.valid = true) →
      ReadAll env t ⟨api⟩ = ⟨.ok ⟨apiVersion, t.rows.map rowToTodo⟩, t, true⟩) := by
  constructor
  · intro h
    obtain ⟨m, hm⟩ := decodeRows_err_of_invalid t.rows h
    exact ⟨m, by simp [ReadAll, hapi, hconn, hquery, hm]⟩
  · intro h
    simp [ReadAll, hapi, hconn, hquery, decodeRows_ok_of_all_valid t.rows h]

theorem c8_readall_decode_all_or_nothing_witness :
    (⟨true, true, true⟩ : Env).connOk = true ∧
    (⟨true, true, true⟩ : Env).queryOk = true ∧
    checkAPI "" = none ∧
    (((∃ r ∈ (⟨[⟨1, "a", "b", ⟨0, 0⟩⟩, ⟨2, "c", "d", ⟨5, 5⟩⟩], 3⟩ : Table).rows,
        r.reminder.valid = false) →
      ∃ m, ReadAll ⟨true, true, true⟩ ⟨[⟨1, "a", "b", ⟨0, 0⟩⟩, ⟨2, "c", "d", ⟨5, 5⟩⟩], 3⟩ ⟨""⟩ =
        ⟨.err ⟨Code.Unknown, m⟩, ⟨[⟨1, "a", "b", ⟨0, 0⟩⟩, ⟨2, "c", "d", ⟨5, 5⟩⟩], 3⟩, true⟩) ∧
     ((∀ r ∈ (⟨[⟨1, "a", "b", ⟨0, 0⟩⟩, ⟨2, "c", "d", ⟨5, 5⟩⟩], 3⟩ : Table).rows,
        r.reminder.valid = true) →
      ReadAll ⟨true, true, true⟩ ⟨[⟨1, "a", "b", ⟨0, 0⟩⟩, ⟨2, "c", "d", ⟨5, 5⟩⟩], 3⟩ ⟨""⟩ =
        ⟨.ok ⟨apiVersion,
          (⟨[⟨1, "a", "b", ⟨0, 0⟩⟩, ⟨2, "c", "d", ⟨5, 5⟩⟩], 3⟩ : Table).rows.map rowToTodo⟩,
         ⟨[⟨1, "a", "b", ⟨0, 0⟩⟩, ⟨2, "c", "d", ⟨5, 5⟩⟩], 3⟩, true⟩)) :=
  ⟨rfl, rfl, rfl,
    c8_readall_decode_all_or_nothing ⟨true, true, true⟩
      ⟨[⟨1, "a", "b", ⟨0, 0⟩⟩, ⟨2, "c", "d", ⟨5, 5⟩⟩], 3⟩ "" rfl rfl rfl⟩

/-- C9: with working infrastructure, a matching version and a decodable
reminder, the `UPDATE` statement leaves every row's id unchanged, leaves
rows whose id differs from the target untouched, and overwrites exactly
the title, description and reminder of rows matching the target id. -/
theorem c9_update_frame (env : Env) (t : Table) (api : String) (todo : Todo)
    (rem : PTimestamp) (t2 : Table)
    (hconn : env.connOk = true) (hexec : env.execOk = true)
    (hapi : checkAPI api = none)
    (hrem : ptypesTimestamp todo.reminder = .ok rem)
    (ht2 : t2 = (Update env t ⟨api, todo⟩).table) :
    t2.rows.length = t.rows.length ∧
    ∀ i (h : i < t.rows.length) (h2 : i < t2.rows.length),
      t2.rows[i].id = t.rows[i].id ∧
      (t.rows[i].id ≠ todo.id → t2.rows[i] = t.rows[i]) ∧
      (t.rows[i].id = todo.id →
        t2.rows[i] = ⟨t.rows[i].id, todo.title, todo.description, rem⟩) := by
  have hrows : t2.rows = t.rows.map (updateRow ⟨api, todo⟩ rem) := by
    rw [ht2]
    simp [Update, hapi, hconn, hexec, hrem]
  have hlen : t2.rows.length = t.rows.length := by
    rw [hrows, List.length_map]
  refine ⟨hlen, ?_⟩
  intro i h h2
  have hget : t2.rows[i] = updateRow ⟨api, todo⟩ rem t.rows[i] := by
    have hmap : i < (t.rows.map (updateRow ⟨api, todo⟩ rem)).length := by
      rw [List.length_map]
      exact h
    calc t2.rows[i] = (t.rows.map (updateRow ⟨api, todo⟩ rem))[i] := by
          congr 1
        _ = updateRow ⟨api, todo⟩ rem t.rows[i] := List.getElem_map _
  rw [hget]
  unfold updateRow
  by_cases hcase : t.rows[i].id = todo.id
  · simp [hcase]
  · simp [hcase]

theorem c9_update_frame_witness :
    (⟨true, true, true⟩ : Env).connOk = true ∧
    (⟨true, true, true⟩ : Env).execOk = true ∧
    checkAPI "" = none ∧
    ptypesTimestamp (some ⟨9, 9⟩) = .ok ⟨9, 9⟩ ∧
    ((Update ⟨true, true, true⟩ ⟨[⟨1, "a", "b", ⟨0, 0⟩⟩, ⟨2, "c", "d", ⟨5, 5⟩⟩], 3⟩
        ⟨"", ⟨2, "x", "y", some ⟨9, 9⟩⟩⟩).table =
      (Update ⟨true, true, true⟩ ⟨[⟨1, "a", "b", ⟨0, 0⟩⟩, ⟨2, "c", "d", ⟨5, 5⟩⟩], 3⟩
        ⟨"", ⟨2, "x", "y", some ⟨9, 9⟩⟩⟩).table) ∧
    (((Update ⟨true, true, true⟩ ⟨[⟨1, "a", "b", ⟨0, 0⟩⟩, ⟨2, "c", "d", ⟨5, 5⟩⟩], 3⟩
        ⟨"", ⟨2, "x", "y", some ⟨9, 9⟩⟩⟩).table).rows.length =
      (⟨[⟨1, "a", "b", ⟨0, 0⟩⟩, ⟨2, "c", "d", ⟨5, 5⟩⟩], 3⟩ : Table).rows.length ∧
     ∀ i (h : i < (⟨[⟨1, "a", "b", ⟨0, 0⟩⟩, ⟨2, "c", "d", ⟨5, 5⟩⟩], 3⟩ : Table).rows.length)
       (h2 : i < ((Update ⟨true, true, true⟩
            ⟨[⟨1, "a", "b", ⟨0, 0⟩⟩, ⟨2, "c", "d", ⟨5, 5⟩⟩], 3⟩
            ⟨"", ⟨2, "x", "y", some ⟨9, 9⟩⟩⟩).table).rows.length),
       ((Update ⟨true, true, true⟩ ⟨[⟨1, "a", "b", ⟨0, 0⟩⟩, ⟨2, "c", "d", ⟨5, 5⟩⟩], 3⟩
          ⟨"", ⟨2, "x", "y", some ⟨9, 9⟩⟩⟩).table).rows[i].id =
        (⟨[⟨1, "a", "b", ⟨0, 0⟩⟩, ⟨2, "c", "d", ⟨5, 5⟩⟩], 3⟩ : Table).rows[i].id ∧
       ((⟨[⟨1, "a", "b", ⟨0, 0⟩⟩, ⟨2, "c", "d", ⟨5, 5⟩⟩], 3⟩ : Table).rows[i].id ≠
          (⟨2, "x", "y", some ⟨9, 9⟩⟩ : Todo).id →
        ((Update ⟨true, true, true⟩ ⟨[⟨1, "a", "b", ⟨0, 0⟩⟩, ⟨2, "c", "d", ⟨5, 5⟩⟩], 3⟩
          ⟨"", ⟨2, "x", "y", some ⟨9, 9⟩⟩⟩).table).rows[i] =
        (⟨[⟨1, "a", "b", ⟨0, 0⟩⟩, ⟨2, "c", "d", ⟨5, 5⟩⟩], 3⟩ : Table).rows[i]) ∧
       ((⟨[⟨1, "a", "b", ⟨0, 0⟩⟩, ⟨2, "c", "d", ⟨5, 5⟩⟩], 3⟩ : Table).rows[i].id =
          (⟨2, "x", "y", some ⟨9, 9⟩⟩ : Todo).id →
        ((Update ⟨true, true, true⟩ ⟨[⟨1, "a", "b", ⟨0, 0⟩⟩, ⟨2, "c", "d", ⟨5, 5⟩⟩], 3⟩
          ⟨"", ⟨2, "x", "y", some ⟨9, 9⟩⟩⟩).table).rows[i] =
        ⟨(⟨[⟨1, "a", "b", ⟨0, 0⟩⟩, ⟨2, "c", "d", ⟨5, 5⟩⟩], 3⟩ : Table).rows[i].id,
          "x", "y", ⟨9, 9⟩⟩)) :=
  by
  have hv : (⟨9, 9⟩ : PTimestamp).valid = true := by decide
  have hts : ptypesTimestamp (some ⟨9, 9⟩) = .ok ⟨9, 9⟩ := by
    simp [ptypesTimestamp, hv]
  exact ⟨rfl, rfl, rfl, hts, rfl,
    c9_update_frame ⟨true, true, true⟩ ⟨[⟨1, "a", "b", ⟨0, 0⟩⟩, ⟨2, "c", "d", ⟨5, 5⟩⟩], 3⟩
      "" ⟨2, "x", "y", some ⟨9, 9⟩⟩ ⟨9, 9⟩ _
      rfl rfl rfl hts rfl⟩

/-- Every successful `Create` response carries the server's version. -/
theorem create_ok_api (e : Env) (t : Table) (r : CreateRequest) (p : CreateResponse)
    (h : (Create e t r).outcome = .ok p) : p.api = apiVersion := by
  unfold Create at h
  repeat' split at h
  all_goals simp at h
  all_goals rw [← h]

/-- Every successful `Read` response carries the server's version. -/
theorem read_ok_api (e : Env) (t : Table) (r : ReadRequest) (p : ReadResponse)
    (h : (Read e t r).outcome = .ok p) : p.api = apiVersion := by
  unfold Read at h
  repeat' split at h
  all_goals simp at h
  all_goals rw [← h]

/-- Every successful `Update` response carries the server's version. -/
theorem update_ok_api (e : Env) (t : Table) (r : UpdateRequest) (p : UpdateResponse)
    (h : (Update e t r).outcome = .ok p) : p.api = apiVersion := by
  unfold Update at h
  repeat' split at h
  all_goals simp at h
  all_goals rw [← h]

/-- Every successful `Delete` response carries the server's version. -/
theorem delete_ok_api (e : Env) (t : Table) (r : DeleteRequest) (p : DeleteResponse)
    (h : (Delete e t r).outcome = .ok p) : p.api = apiVersion := by
  unfold Delete at h
  repeat' split at h
  all_goals simp at h
  split at h
  · simp at h
  · simp at h
    rw [← h]

/-- Every successful `ReadAll` response carries the server's version. -/
theorem readall_ok_api (e : Env) (t : Table) (r : ReadAllRequest) (p : ReadAllResponse)
    (h : (ReadAll e t r).outcome = .ok p) : p.api = apiVersion := by
  unfold ReadAll at h
  repeat' split at h
  all_goals simp at h
  all_goals rw [← h]

/-- C10: for all five operations, on every input whatsoever, a successful
response carries the `Api` field equal to the constant "v1"; in particular
it never echoes an empty requested-version string. -/
theorem c10_success_api_is_v1
    (e1 e2 e3 e4 e5 : Env) (t1 t2 t3 t4 t5 : Table)
    (r1 : CreateRequest) (r2 : ReadRequest) (r3 : UpdateRequest)
    (r4 : DeleteRequest) (r5 : ReadAllRequest)
    (p1 : CreateResponse) (p2 : ReadResponse) (p3 : UpdateResponse)
    (p4 : DeleteResponse) (p5 : ReadAllResponse)
    (h1 : (Create e1 t1 r1).outcome = .ok p1)
    (h2 : (Read e2 t2 r2).outcome = .ok p2)
    (h3 : (Update e3 t3 r3).outcome = .ok p3)
    (h4 : (Delete e4 t4 r4).outcome = .ok p4)
    (h5 : (ReadAll e5 t5 r5).outcome = .ok p5) :
    p1.api = "v1" ∧ p2.api = "v1" ∧ p3.api = "v1" ∧ p4.api = "v1" ∧
    p5.api = "v1" ∧ apiVersion = "v1" ∧ apiVersion ≠ "" :=
  ⟨create_ok_api e1 t1 r1 p1 h1, read_ok_api e2 t2 r2 p2 h2,
   update_ok_api e3 t3 r3 p3 h3, delete_ok_api e4 t4 r4 p4 h4,
   readall_ok_api e5 t5 r5 p5 h5, rfl, by decide⟩

theorem c10_success_api_is_v1_witness :
    (Create ⟨true, true, true⟩ ⟨[], 1⟩ ⟨"", ⟨0, "a", "b", some ⟨0, 0⟩⟩⟩).outcome =
      .ok ⟨"v1", 1⟩ ∧
    (Read ⟨true, true, true⟩ ⟨[⟨1, "a", "b", ⟨0, 0⟩⟩], 2⟩ ⟨"", 1⟩).outcome =
      .ok ⟨"v1", ⟨1, "a", "b", some ⟨0, 0⟩⟩⟩ ∧
    (Update ⟨true, true, true⟩ ⟨[⟨1, "a", "b", ⟨0, 0⟩⟩], 2⟩
        ⟨"", ⟨1, "x", "y", some ⟨0, 0⟩⟩⟩).outcome = .ok ⟨"v1", 1⟩ ∧
    (Delete ⟨true, true, true⟩ ⟨[⟨1, "a", "b", ⟨0, 0⟩⟩], 2⟩ ⟨"", 1⟩).outcome =
      .ok ⟨"v1", 1⟩ ∧
    (ReadAll ⟨true, true, true⟩ ⟨[⟨1, "a", "b", ⟨0, 0⟩⟩], 2⟩ ⟨""⟩).outcome =
      .ok ⟨"v1", [⟨1, "a", "b", some ⟨0, 0⟩⟩]⟩ ∧
    (((⟨"v1", 1⟩ : CreateResponse).api = "v1") ∧
     ((⟨"v1", ⟨1, "a", "b", some ⟨0, 0⟩⟩⟩ : ReadResponse).api = "v1") ∧
     ((⟨"v1", 1⟩ : UpdateResponse).api = "v1") ∧
     ((⟨"v1", 1⟩ : DeleteResponse).api = "v1") ∧
     ((⟨"v1", [⟨1, "a", "b", some ⟨0, 0⟩⟩]⟩ : ReadAllResponse).api = "v1") ∧
     apiVersion = "v1" ∧ apiVersion ≠ "") := by
  refine ⟨by decide, by decide, by decide, by decide, by decide, ?_⟩
  exact c10_success_api_is_v1
    ⟨true, true, true⟩ ⟨true, true, true⟩ ⟨true, true, true⟩ ⟨true, true, true⟩
    ⟨true, true, true⟩
    ⟨[], 1⟩ ⟨[⟨1, "a", "b", ⟨0, 0⟩⟩], 2⟩ ⟨[⟨1, "a", "b", ⟨0, 0⟩⟩], 2⟩
    ⟨[⟨1, "a", "b", ⟨0, 0⟩⟩], 2⟩ ⟨[⟨1, "a", "b", ⟨0, 0⟩⟩], 2⟩
    ⟨"", ⟨0, "a", "b", some ⟨0, 0⟩⟩⟩ ⟨"", 1⟩ ⟨"", ⟨1, "x", "y", some ⟨0, 0⟩⟩⟩
    ⟨"", 1⟩ ⟨""⟩
    ⟨"v1", 1⟩ ⟨"v1", ⟨1, "a", "b", some ⟨0, 0⟩⟩⟩ ⟨"v1", 1⟩ ⟨"v1", 1⟩
    ⟨"v1", [⟨1, "a", "b", some ⟨0, 0⟩⟩]⟩
    (by decide) (by decide) (by decide) (by decide) (by decide)

end TodoService